import Mathlib

/-! FloppyConfig.Prepare (multistep/commonsteps/floppy_config.go)

A shallow embedding of `FloppyConfig.Prepare` and the properties of it that the
specification states.

Modelling conventions

* A Go slice is a `Slice`: `Slice.nil` is the nil slice, `Slice.mk xs` a non-nil
  slice holding `xs` (`make([]string, 0)` is `Slice.mk []`).
* A Go `error` value is an `Option String`: `none` is the nil error, `some e` an
  error whose `Error()` text is `e`.
* `os.Stat` and `filepath.Glob` are not code of this package; they are the two
  fields of a `FileSystem`, fixed for the duration of one call.
* `Prepare` is stateful: it mutates the receiver, assigns the local variables
  `errs` and `err`, and calls into the file system. The embedding passes that
  state explicitly (`State`) and records every file-system call, in order, in
  `State.probes`.
* Go strings are byte strings; the embedding uses Lean strings, that is, it
  covers the paths that are valid UTF-8.
-/

set_option linter.unusedVariables false

namespace commonsteps

/-! ## Go values -/

/-- A Go slice value: `nil` is the nil slice, `mk xs` a non-nil slice with the
elements `xs`. -/
inductive Slice (α : Type) where
  | nil : Slice α
  | mk (xs : List α) : Slice α
deriving DecidableEq, Repr

namespace Slice

/-- The elements a `range` loop visits; the nil slice has none. -/
def elems {α : Type} : Slice α → List α
  | nil => []
  | mk xs => xs

/-- Go `len(s)`. -/
def len {α : Type} (s : Slice α) : Nat := s.elems.length

/-- Go `s == nil`. -/
def isNil {α : Type} : Slice α → Bool
  | nil => true
  | mk _ => false

/-- Go `append(s, x)`: the result is never nil. -/
def append {α : Type} (s : Slice α) (x : α) : Slice α := mk (s.elems ++ [x])

end Slice

/-- Go `strings.ContainsAny(s, chars)`: some code point of `chars` occurs in `s`. -/
def ContainsAny (s chars : String) : Bool :=
  s.data.any (fun c => chars.data.contains c)

/-! ## The file system -/

/-- What `os.Stat` reports about an existing entry (the only part the
specification talks about). -/
structure FileInfo where
  isDir : Bool
deriving DecidableEq, Repr

/-- The two file-system calls `Prepare` makes. `stat p` is `os.Stat(p)`,
`glob p` is `filepath.Glob(p)`; each returns its value or the text of its error. -/
structure FileSystem where
  stat : String → Except String FileInfo
  glob : String → Except String (List String)

/-- One call into the file system. -/
inductive Probe where
  | stat (path : String) : Probe
  | glob (path : String) : Probe
deriving DecidableEq, Repr

/-- The `error` half of a Go `(value, error)` result. -/
def errOf {α : Type} : Except String α → Option String
  | .ok _ => none
  | .error e => some e

/-! ## FloppyConfig and Prepare -/

/-- The `FloppyConfig` struct. `FloppyContent` is a Go map (`none` is the nil map). -/
structure FloppyConfig where
  FloppyFiles : Slice String
  FloppyDirectories : Slice String
  FloppyContent : Option (List (String × String))
  FloppyLabel : String
deriving DecidableEq, Repr

/-- The local state of `Prepare`: the variables `errs` and `err`, and the log of
file-system calls made so far. -/
structure State where
  errs : Slice String
  err : Option String
  probes : List Probe
deriving DecidableEq, Repr

/-- Body of the loop `for _, path := range c.FloppyFiles`. -/
def filesBody (fs : FileSystem) (s : State) (path : String) : State :=
  let s1 : State :=
    if ContainsAny path "*?[" then
      { s with err := errOf (fs.glob path), probes := s.probes ++ [Probe.glob path] }
    else
      { s with err := errOf (fs.stat path), probes := s.probes ++ [Probe.stat path] }
  match s1.err with
  | some e => { s1 with errs := s1.errs.append ("Bad Floppy disk file '" ++ path ++ "': " ++ e) }
  | none => s1

/-- Body of the loop `for _, path := range c.FloppyDirectories`. -/
def dirsBody (fs : FileSystem) (s : State) (path : String) : State :=
  let s1 : State :=
    if ContainsAny path "*?[" then
      { s with err := errOf (fs.glob path), probes := s.probes ++ [Probe.glob path] }
    else
      { s with err := errOf (fs.stat path), probes := s.probes ++ [Probe.stat path] }
  match s1.err with
  | some e =>
    { s1 with errs := s1.errs.append ("Bad Floppy disk directory '" ++ path ++ "': " ++ e) }
  | none => s1

/-- What a call of `Prepare` leaves behind: the receiver after the call, the
returned `[]error` (each error by its message), and the file-system calls made. -/
structure Outcome where
  c : FloppyConfig
  errs : Slice String
  probes : List Probe
deriving DecidableEq, Repr

/-- The method `func (c *FloppyConfig) Prepare(ctx *interpolate.Context) []error`.
`ctx` is a pointer (`none` is nil) to a type of another package. -/
def Prepare {Context : Type} (fs : FileSystem) (c : FloppyConfig) (ctx : Option Context) :
    Outcome :=
  let s0 : State := { errs := Slice.nil, err := none, probes := [] }
  let c1 : FloppyConfig :=
    if c.FloppyFiles.isNil then { c with FloppyFiles := Slice.mk [] } else c
  let s1 : State := c1.FloppyFiles.elems.foldl (filesBody fs) s0
  let c2 : FloppyConfig :=
    if c1.FloppyDirectories.isNil then { c1 with FloppyDirectories := Slice.mk [] } else c1
  let s2 : State := c2.FloppyDirectories.elems.foldl (dirsBody fs) s1
  { c := c2, errs := s2.errs, probes := s2.probes }

/-! ## Example file systems -/

/-- A file system holding the regular file `real_file.txt` and the directory
`drivers` with one sub-directory `drivers/net`; patterns with an unterminated
character class are rejected by `glob`. -/
def fsExample : FileSystem where
  stat := fun p =>
    if p = "real_file.txt" then .ok { isDir := false }
    else if p = "drivers" then .ok { isDir := true }
    else if p = "drivers/net" then .ok { isDir := true }
    else .error ("stat " ++ p ++ ": no such file or directory")
  glob := fun p =>
    if p = "foo[bar" then .error "syntax error in pattern"
    else if p = "drivers/*" then .ok ["drivers/net"]
    else if p = "real_*" then .ok ["real_file.txt"]
    else .ok []

/-- The scenario `floppyFiles = ["real_file.txt", "missing.iso"]`. -/
def cfgMissing : FloppyConfig :=
  { FloppyFiles := Slice.mk ["real_file.txt", "missing.iso"], FloppyDirectories := Slice.nil,
    FloppyContent := none, FloppyLabel := "" }

/-- A configuration whose only entry is a pattern that matches nothing. -/
def cfgNoMatch : FloppyConfig :=
  { FloppyFiles := Slice.mk ["*.nomatch"], FloppyDirectories := Slice.nil,
    FloppyContent := none, FloppyLabel := "" }

/-- A configuration that `Prepare` accepts on `fsExample`: an existing file, a
pattern without a match, a pattern with a match. -/
def cfgAccepted : FloppyConfig :=
  { FloppyFiles := Slice.mk ["real_file.txt", "*.nomatch"],
    FloppyDirectories := Slice.mk ["drivers/*"],
    FloppyContent := none, FloppyLabel := "" }

/-- A configuration with the malformed pattern `foo[bar`, twice among the files
and once among the directories. -/
def cfgMalformed : FloppyConfig :=
  { FloppyFiles := Slice.mk ["foo[bar", "real_file.txt", "foo[bar"],
    FloppyDirectories := Slice.mk ["drivers", "foo[bar"],
    FloppyContent := none, FloppyLabel := "" }

/-! ## Vocabulary for the properties -/

/-- The underlying error of the check `Prepare` makes on one entry: the error of
`filepath.Glob` when the entry has one of the characters `*?[`, the error of
`os.Stat` otherwise; `none` when the call succeeds. -/
def checkErr (fs : FileSystem) (path : String) : Option String :=
  if ContainsAny path "*?[" then errOf (fs.glob path) else errOf (fs.stat path)

/-- The file-system call `Prepare` makes for one entry. -/
def probeOf (path : String) : Probe :=
  if ContainsAny path "*?[" then Probe.glob path else Probe.stat path

/-- The message of the error appended for a failing `FloppyFiles` entry. -/
def fileMsg (path e : String) : String := "Bad Floppy disk file '" ++ path ++ "': " ++ e

/-- The message of the error appended for a failing `FloppyDirectories` entry. -/
def dirMsg (path e : String) : String := "Bad Floppy disk directory '" ++ path ++ "': " ++ e

/-- The errors of the `FloppyFiles` entries, in order. -/
def fileErrs (fs : FileSystem) (xs : List String) : List String :=
  xs.filterMap (fun p => (checkErr fs p).map (fileMsg p))

/-- The errors of the `FloppyDirectories` entries, in order. -/
def dirErrs (fs : FileSystem) (xs : List String) : List String :=
  xs.filterMap (fun p => (checkErr fs p).map (dirMsg p))

/-- The slice that results from appending `ys`, one by one, to the nil slice. -/
def collected {α : Type} : List α → Slice α
  | [] => Slice.nil
  | y :: ys => Slice.mk (y :: ys)

/-- The specification's reading of a valid entry: it "resolves to at least one
existing filesystem entry (directly or via wildcard expansion)", that is, it names
an existing entry or it is a wildcard pattern whose expansion is not empty. -/
def resolves (fs : FileSystem) (p : String) : Bool :=
  match fs.stat p with
  | .ok _ => true
  | .error _ =>
    ContainsAny p "*?[" &&
      (match fs.glob p with
        | .ok (_ :: _) => true
        | _ => false)

/-- The message the specification gives for a failing file entry. -/
def specFileMsg (path e : String) : String := "bad floppy disk file '" ++ path ++ "': " ++ e

/-- The message the specification gives for a failing directory entry. -/
def specDirMsg (path e : String) : String :=
  "bad floppy disk directory '" ++ path ++ "': " ++ e

/-- The failing entries of a list whose first position is `i`: position, path and
underlying error of every entry whose check fails, in order. -/
def failuresFrom (fs : FileSystem) : Nat → List String → List (Nat × String × String)
  | _, [] => []
  | i, p :: rest =>
    match checkErr fs p with
    | some e => (i, p, e) :: failuresFrom fs (i + 1) rest
    | none => failuresFrom fs (i + 1) rest

/-- The failing entries of `L`: position in `L`, path and underlying error. -/
def failures (fs : FileSystem) (L : List String) : List (Nat × String × String) :=
  failuresFrom fs 0 L

/-! ## The loops -/

theorem Slice.elems_mk {α : Type} (xs : List α) : (Slice.mk xs).elems = xs := rfl

theorem Slice.elems_append {α : Type} (s : Slice α) (x : α) :
    (s.append x).elems = s.elems ++ [x] := rfl

theorem elems_collected {α : Type} (ys : List α) : (collected ys).elems = ys := by
  cases ys <;> rfl

theorem filesBody_errs (fs : FileSystem) (s : State) (path : String) :
    (filesBody fs s path).errs =
      match checkErr fs path with
      | some e => s.errs.append (fileMsg path e)
      | none => s.errs := by
  unfold filesBody checkErr fileMsg
  by_cases h : ContainsAny path "*?[" = true
  · simp only [h, if_true]
    cases errOf (fs.glob path) <;> rfl
  · simp only [h]
    cases errOf (fs.stat path) <;> rfl

theorem filesBody_probes (fs : FileSystem) (s : State) (path : String) :
    (filesBody fs s path).probes = s.probes ++ [probeOf path] := by
  unfold filesBody probeOf
  by_cases h : ContainsAny path "*?[" = true
  · simp only [h, if_true]
    cases errOf (fs.glob path) <;> rfl
  · simp only [h]
    cases errOf (fs.stat path) <;> rfl

theorem dirsBody_errs (fs : FileSystem) (s : State) (path : String) :
    (dirsBody fs s path).errs =
      match checkErr fs path with
      | some e => s.errs.append (dirMsg path e)
      | none => s.errs := by
  unfold dirsBody checkErr dirMsg
  by_cases h : ContainsAny path "*?[" = true
  · simp only [h, if_true]
    cases errOf (fs.glob path) <;> rfl
  · simp only [h]
    cases errOf (fs.stat path) <;> rfl

theorem dirsBody_probes (fs : FileSystem) (s : State) (path : String) :
    (dirsBody fs s path).probes = s.probes ++ [probeOf path] := by
  unfold dirsBody probeOf
  by_cases h : ContainsAny path "*?[" = true
  · simp only [h, if_true]
    cases errOf (fs.glob path) <;> rfl
  · simp only [h]
    cases errOf (fs.stat path) <;> rfl

/-- Appending the errors `y :: ys` to `s`, in order. -/
theorem foldl_append_cons {α : Type} (ys : List α) (y : α) (s : Slice α) :
    (y :: ys).foldl Slice.append s = Slice.mk (s.elems ++ y :: ys) := by
  induction ys generalizing s y with
  | nil => rfl
  | cons z zs ih =>
    rw [List.foldl_cons, ih]
    simp [Slice.append, Slice.elems]

/-- The `errs` and `probes` a loop over `xs` leaves, for a loop body that appends
the message `msg path e` exactly when the check of `path` fails with `e`. -/
theorem loop_spec (fs : FileSystem) (body : State → String → State)
    (msg : String → String → String)
    (herrs : ∀ s path, (body s path).errs =
      match checkErr fs path with
      | some e => s.errs.append (msg path e)
      | none => s.errs)
    (hprobes : ∀ s path, (body s path).probes = s.probes ++ [probeOf path])
    (xs : List String) (s : State) :
    (xs.foldl body s).errs
        = (xs.filterMap (fun p => (checkErr fs p).map (msg p))).foldl Slice.append s.errs
      ∧ (xs.foldl body s).probes = s.probes ++ xs.map probeOf := by
  induction xs generalizing s with
  | nil => simp
  | cons x xs ih =>
    rw [List.foldl_cons]
    obtain ⟨h1, h2⟩ := ih (body s x)
    rw [h1, h2, herrs, hprobes]
    constructor
    · cases hc : checkErr fs x <;> simp [List.filterMap_cons, hc]
    · simp

/-- Closed form of `Prepare`. -/
theorem Prepare_eq {Context : Type} (fs : FileSystem) (c : FloppyConfig) (ctx : Option Context) :
    Prepare fs c ctx =
      { c := { c with FloppyFiles := Slice.mk c.FloppyFiles.elems,
                      FloppyDirectories := Slice.mk c.FloppyDirectories.elems },
        errs := collected (fileErrs fs c.FloppyFiles.elems ++ dirErrs fs c.FloppyDirectories.elems),
        probes := c.FloppyFiles.elems.map probeOf ++ c.FloppyDirectories.elems.map probeOf } := by
  obtain ⟨files, dirs, content, label⟩ := c
  have hf := loop_spec fs (filesBody fs) fileMsg (filesBody_errs fs) (filesBody_probes fs)
  have hd := loop_spec fs (dirsBody fs) dirMsg (dirsBody_errs fs) (dirsBody_probes fs)
  have key : ∀ (xs ys : List String),
      (ys.foldl (dirsBody fs) (xs.foldl (filesBody fs) ⟨Slice.nil, none, []⟩)).errs
          = collected (fileErrs fs xs ++ dirErrs fs ys)
        ∧ (ys.foldl (dirsBody fs) (xs.foldl (filesBody fs) ⟨Slice.nil, none, []⟩)).probes
          = xs.map probeOf ++ ys.map probeOf := by
    intro xs ys
    obtain ⟨d1, d2⟩ := hd ys (xs.foldl (filesBody fs) ⟨Slice.nil, none, []⟩)
    obtain ⟨f1, f2⟩ := hf xs ⟨Slice.nil, none, []⟩
    rw [d1, d2, f1, f2]
    refine ⟨?_, by simp⟩
    unfold fileErrs dirErrs
    generalize xs.filterMap (fun p => (checkErr fs p).map (fileMsg p)) = a
    generalize ys.filterMap (fun p => (checkErr fs p).map (dirMsg p)) = b
    cases a <;> cases b <;>
      simp only [foldl_append_cons, List.foldl_nil, collected, Slice.elems, List.nil_append,
        List.append_nil, List.cons_append]
  cases files <;> cases dirs <;>
    simp only [Prepare, Slice.isNil, Slice.elems, if_true, Bool.false_eq_true, if_false] <;>
    simp only [Outcome.mk.injEq, true_and] <;>
    exact key _ _

/-! ## Auxiliary facts -/

theorem length_filterMap_map {α β γ : Type} (f : α → Option β) (g : α → β → γ) (xs : List α) :
    (xs.filterMap (fun p => (f p).map (g p))).length = xs.countP (fun p => (f p).isSome) := by
  induction xs with
  | nil => rfl
  | cons x xs ih =>
    cases h : f x <;> simp [List.filterMap_cons, List.countP_cons, h, ih]

theorem checkErr_of_plain (fs : FileSystem) (p : String) (h : ContainsAny p "*?[" = false) :
    checkErr fs p = errOf (fs.stat p) := by
  simp [checkErr, h]

theorem checkErr_of_wildcard (fs : FileSystem) (p : String) (h : ContainsAny p "*?[" = true) :
    checkErr fs p = errOf (fs.glob p) := by
  simp [checkErr, h]

theorem probeOf_of_plain (p : String) (h : ContainsAny p "*?[" = false) :
    probeOf p = Probe.stat p := by
  simp [probeOf, h]

theorem probeOf_of_wildcard (p : String) (h : ContainsAny p "*?[" = true) :
    probeOf p = Probe.glob p := by
  simp [probeOf, h]

theorem fileErrs_append (fs : FileSystem) (xs ys : List String) :
    fileErrs fs (xs ++ ys) = fileErrs fs xs ++ fileErrs fs ys := by
  simp [fileErrs, List.filterMap_append]

theorem dirErrs_append (fs : FileSystem) (xs ys : List String) :
    dirErrs fs (xs ++ ys) = dirErrs fs xs ++ dirErrs fs ys := by
  simp [dirErrs, List.filterMap_append]

theorem fileErrs_cons (fs : FileSystem) (x : String) (xs : List String) :
    fileErrs fs (x :: xs) =
      (match checkErr fs x with
        | some e => [fileMsg x e]
        | none => []) ++ fileErrs fs xs := by
  cases h : checkErr fs x <;> simp [fileErrs, List.filterMap_cons, h]

theorem dirErrs_cons (fs : FileSystem) (x : String) (xs : List String) :
    dirErrs fs (x :: xs) =
      (match checkErr fs x with
        | some e => [dirMsg x e]
        | none => []) ++ dirErrs fs xs := by
  cases h : checkErr fs x <;> simp [dirErrs, List.filterMap_cons, h]

theorem stat_not_mem_map_probeOf (p : String) (h : ContainsAny p "*?[" = true)
    (xs : List String) : Probe.stat p ∉ xs.map probeOf := by
  intro hm
  obtain ⟨q, -, hq⟩ := List.mem_map.mp hm
  unfold probeOf at hq
  by_cases hc : ContainsAny q "*?[" = true
  · simp [hc] at hq
  · simp only [hc] at hq
    injection hq with hqp
    subst hqp
    exact hc h

theorem fileErrs_eq_nil (fs : FileSystem) (xs : List String) (h : fileErrs fs xs = []) :
    ∀ p ∈ xs, checkErr fs p = none := by
  induction xs with
  | nil => intro p hp; cases hp
  | cons x xs ih =>
    rw [fileErrs_cons] at h
    cases hx : checkErr fs x with
    | some e => rw [hx] at h; cases h
    | none =>
      rw [hx] at h
      intro p hp
      rcases List.mem_cons.mp hp with rfl | hp
      · exact hx
      · exact ih h p hp

theorem dirErrs_eq_nil (fs : FileSystem) (xs : List String) (h : dirErrs fs xs = []) :
    ∀ p ∈ xs, checkErr fs p = none := by
  induction xs with
  | nil => intro p hp; cases hp
  | cons x xs ih =>
    rw [dirErrs_cons] at h
    cases hx : checkErr fs x with
    | some e => rw [hx] at h; cases h
    | none =>
      rw [hx] at h
      intro p hp
      rcases List.mem_cons.mp hp with rfl | hp
      · exact hx
      · exact ih h p hp

theorem errOf_eq_none {α : Type} (r : Except String α) (h : errOf r = none) :
    ∃ v, r = .ok v := by
  cases r with
  | ok v => exact ⟨v, rfl⟩
  | error e => cases h

theorem mem_fileErrs (fs : FileSystem) (xs : List String) (m : String)
    (h : m ∈ fileErrs fs xs) : ∃ p ∈ xs, ∃ e, checkErr fs p = some e ∧ m = fileMsg p e := by
  obtain ⟨p, hp, hm⟩ := List.mem_filterMap.mp h
  cases hc : checkErr fs p with
  | none => rw [hc] at hm; cases hm
  | some e =>
    rw [hc] at hm
    exact ⟨p, hp, e, hc, (Option.some.inj hm).symm⟩

theorem mem_dirErrs (fs : FileSystem) (xs : List String) (m : String)
    (h : m ∈ dirErrs fs xs) : ∃ p ∈ xs, ∃ e, checkErr fs p = some e ∧ m = dirMsg p e := by
  obtain ⟨p, hp, hm⟩ := List.mem_filterMap.mp h
  cases hc : checkErr fs p with
  | none => rw [hc] at hm; cases hm
  | some e =>
    rw [hc] at hm
    exact ⟨p, hp, e, hc, (Option.some.inj hm).symm⟩

theorem count_le_count_fileErrs (fs : FileSystem) (p e : String) (h : checkErr fs p = some e)
    (xs : List String) : xs.count p ≤ (fileErrs fs xs).count (fileMsg p e) := by
  induction xs with
  | nil => simp
  | cons x xs ih =>
    rw [fileErrs_cons, List.count_append, List.count_cons]
    by_cases hx : x = p
    · subst hx
      rw [h]
      simp only [beq_self_eq_true, if_true, List.count_cons, List.count_nil]
      omega
    · have : (x == p) = false := by simpa using hx
      simp only [this]
      simp only [Bool.false_eq_true, if_false]
      omega

theorem count_le_count_dirErrs (fs : FileSystem) (p e : String) (h : checkErr fs p = some e)
    (xs : List String) : xs.count p ≤ (dirErrs fs xs).count (dirMsg p e) := by
  induction xs with
  | nil => simp
  | cons x xs ih =>
    rw [dirErrs_cons, List.count_append, List.count_cons]
    by_cases hx : x = p
    · subst hx
      rw [h]
      simp only [beq_self_eq_true, if_true, List.count_cons, List.count_nil]
      omega
    · have : (x == p) = false := by simpa using hx
      simp only [this]
      simp only [Bool.false_eq_true, if_false]
      omega

theorem length_fileErrs (fs : FileSystem) (xs : List String) :
    (fileErrs fs xs).length = xs.countP (fun p => (checkErr fs p).isSome) :=
  length_filterMap_map (checkErr fs) fileMsg xs

theorem length_dirErrs (fs : FileSystem) (xs : List String) :
    (dirErrs fs xs).length = xs.countP (fun p => (checkErr fs p).isSome) :=
  length_filterMap_map (checkErr fs) dirMsg xs

theorem map_failuresFrom (fs : FileSystem) (msg : String → String → String) (i : Nat)
    (L : List String) :
    (failuresFrom fs i L).map (fun t => msg t.2.1 t.2.2)
      = L.filterMap (fun p => (checkErr fs p).map (msg p)) := by
  induction L generalizing i with
  | nil => rfl
  | cons x xs ih =>
    cases h : checkErr fs x <;> simp [failuresFrom, List.filterMap_cons, h, ih]

theorem head_data_append (a b : String) (ch : Char) (h : a.data.head? = some ch) :
    (a ++ b).data.head? = some ch := by
  rw [String.data_append]
  cases hd : a.data with
  | nil => rw [hd] at h; cases h
  | cons x xs => rw [hd] at h; simpa using h

/-! ## The claims -/

/-- C1. `Prepare` never short-circuits. The returned errors are the errors of the
failing `FloppyFiles` entries, in the order of `FloppyFiles`, followed by the errors
of the failing `FloppyDirectories` entries, in the order of `FloppyDirectories`;
their number is the number of failing file entries plus the number of failing
directory entries (an entry that occurs twice counts twice); and every entry of
both lists is probed, one call per entry, in order, whatever failed before it. -/
theorem Prepare_collects_every_error {Context : Type} (fs : FileSystem) (c : FloppyConfig)
    (ctx : Option Context) :
    (Prepare fs c ctx).errs.elems
        = c.FloppyFiles.elems.filterMap (fun p => (checkErr fs p).map (fileMsg p))
          ++ c.FloppyDirectories.elems.filterMap (fun p => (checkErr fs p).map (dirMsg p))
      ∧ (Prepare fs c ctx).errs.len
        = c.FloppyFiles.elems.countP (fun p => (checkErr fs p).isSome)
          + c.FloppyDirectories.elems.countP (fun p => (checkErr fs p).isSome)
      ∧ (Prepare fs c ctx).probes
        = c.FloppyFiles.elems.map probeOf ++ c.FloppyDirectories.elems.map probeOf := by
  rw [Prepare_eq]
  refine ⟨?_, ?_, rfl⟩
  · simp only [elems_collected]; rfl
  · simp only [Slice.len, elems_collected, List.length_append]
    unfold fileErrs dirErrs
    rw [length_filterMap_map, length_filterMap_map]

/-- C5. After `Prepare` both `FloppyFiles` and `FloppyDirectories` are non-nil,
whatever the configuration was and whatever the file system answers (so also when
errors are returned); a field that was nil is the empty non-nil slice. -/
theorem Prepare_lists_non_nil {Context : Type} (fs : FileSystem) (c : FloppyConfig)
    (ctx : Option Context) :
    ((Prepare fs c ctx).c.FloppyFiles.isNil = false
        ∧ (Prepare fs c ctx).c.FloppyDirectories.isNil = false)
      ∧ ((Prepare fs { c with FloppyFiles := Slice.nil } ctx).c.FloppyFiles = Slice.mk []
        ∧ (Prepare fs { c with FloppyFiles := Slice.nil } ctx).c.FloppyFiles.len = 0)
      ∧ ((Prepare fs { c with FloppyDirectories := Slice.nil } ctx).c.FloppyDirectories
          = Slice.mk []
        ∧ (Prepare fs { c with FloppyDirectories := Slice.nil } ctx).c.FloppyDirectories.len
          = 0) := by
  simp only [Prepare_eq]
  exact ⟨⟨rfl, rfl⟩, ⟨rfl, rfl⟩, ⟨rfl, rfl⟩⟩

/-- C6. With `FloppyFiles` and `FloppyDirectories` both nil, for any `FloppyContent`,
`FloppyLabel`, context and file system, `Prepare` returns no error (the nil slice),
makes no file-system call, and leaves both lists empty and non-nil. -/
theorem Prepare_unset_lists {Context : Type} (fs : FileSystem)
    (content : Option (List (String × String))) (label : String) (ctx : Option Context) :
    Prepare fs { FloppyFiles := Slice.nil, FloppyDirectories := Slice.nil,
                 FloppyContent := content, FloppyLabel := label } ctx
      = { c := { FloppyFiles := Slice.mk [], FloppyDirectories := Slice.mk [],
                 FloppyContent := content, FloppyLabel := label },
          errs := Slice.nil, probes := [] }
      ∧ (Prepare fs { FloppyFiles := Slice.nil, FloppyDirectories := Slice.nil,
                      FloppyContent := content, FloppyLabel := label } ctx).errs.len = 0 := by
  constructor
  · rw [Prepare_eq]; rfl
  · rw [Prepare_eq]; rfl

/-- C9. `Prepare` changes nothing in the configuration except that a nil list
becomes the empty list: `FloppyContent` and `FloppyLabel` are as before, a non-nil
`FloppyFiles` or `FloppyDirectories` is the same slice as before, and the whole
configuration after the call is the one before it with the two lists made non-nil. -/
theorem Prepare_frame {Context : Type} (fs : FileSystem) (c : FloppyConfig)
    (ctx : Option Context) (xs : List String) :
    (Prepare fs c ctx).c.FloppyContent = c.FloppyContent
      ∧ (Prepare fs c ctx).c.FloppyLabel = c.FloppyLabel
      ∧ (Prepare fs { c with FloppyFiles := Slice.mk xs } ctx).c.FloppyFiles = Slice.mk xs
      ∧ (Prepare fs { c with FloppyDirectories := Slice.mk xs } ctx).c.FloppyDirectories
          = Slice.mk xs
      ∧ (Prepare fs c ctx).c.FloppyFiles.elems = c.FloppyFiles.elems
      ∧ (Prepare fs c ctx).c.FloppyDirectories.elems = c.FloppyDirectories.elems := by
  refine ⟨?_, ?_, ?_, ?_, ?_, ?_⟩ <;> rw [Prepare_eq] <;> rfl

/-- C2. When no entry of `FloppyFiles` or `FloppyDirectories` has one of the
characters `*`, `?`, `[`, every file-system call `Prepare` makes is a `stat` of an
entry (one per entry, in order, none a `glob`), and the returned errors are exactly
one per entry whose `stat` fails, none for an entry whose `stat` succeeds, each
carrying the path of its entry between the quotes. -/
theorem Prepare_plain_paths_stat_only {Context : Type} (fs : FileSystem) (c : FloppyConfig)
    (ctx : Option Context)
    (hplain : ∀ p ∈ c.FloppyFiles.elems ++ c.FloppyDirectories.elems,
      ContainsAny p "*?[" = false) :
    (Prepare fs c ctx).probes
        = (c.FloppyFiles.elems ++ c.FloppyDirectories.elems).map Probe.stat
      ∧ (∀ q, Probe.glob q ∉ (Prepare fs c ctx).probes)
      ∧ (Prepare fs c ctx).errs.elems
        = c.FloppyFiles.elems.filterMap (fun p =>
            (errOf (fs.stat p)).map (fun e => "Bad Floppy disk file '" ++ p ++ "': " ++ e))
          ++ c.FloppyDirectories.elems.filterMap (fun p =>
            (errOf (fs.stat p)).map (fun e =>
              "Bad Floppy disk directory '" ++ p ++ "': " ++ e)) := by
  have hprobes : (Prepare fs c ctx).probes
      = (c.FloppyFiles.elems ++ c.FloppyDirectories.elems).map Probe.stat := by
    rw [Prepare_eq, ← List.map_append]
    exact List.map_congr_left (fun p hp => probeOf_of_plain p (hplain p hp))
  refine ⟨hprobes, ?_, ?_⟩
  · intro q hq
    rw [hprobes] at hq
    obtain ⟨r, -, hr⟩ := List.mem_map.mp hq
    cases hr
  · rw [Prepare_eq]
    simp only [elems_collected, fileErrs, dirErrs]
    congr 1
    · apply List.filterMap_congr
      intro p hp
      rw [checkErr_of_plain fs p (hplain p (List.mem_append_left _ hp))]
      rfl
    · apply List.filterMap_congr
      intro p hp
      rw [checkErr_of_plain fs p (hplain p (List.mem_append_right _ hp))]
      rfl

/-- C2, at the scenario of the specification: `real_file.txt` exists, `missing.iso`
does not; exactly one error is returned and it is the one of `missing.iso`. -/
theorem Prepare_plain_paths_stat_only_witness :
    (∀ p ∈ cfgMissing.FloppyFiles.elems ++ cfgMissing.FloppyDirectories.elems,
        ContainsAny p "*?[" = false)
      ∧ ((Prepare fsExample cfgMissing (none : Option Unit)).probes
          = (cfgMissing.FloppyFiles.elems ++ cfgMissing.FloppyDirectories.elems).map Probe.stat
        ∧ (∀ q, Probe.glob q ∉ (Prepare fsExample cfgMissing (none : Option Unit)).probes)
        ∧ (Prepare fsExample cfgMissing (none : Option Unit)).errs.elems
          = cfgMissing.FloppyFiles.elems.filterMap (fun p =>
              (errOf (fsExample.stat p)).map (fun e =>
                "Bad Floppy disk file '" ++ p ++ "': " ++ e))
            ++ cfgMissing.FloppyDirectories.elems.filterMap (fun p =>
              (errOf (fsExample.stat p)).map (fun e =>
                "Bad Floppy disk directory '" ++ p ++ "': " ++ e)))
      ∧ (Prepare fsExample cfgMissing (none : Option Unit)).errs
          = Slice.mk
              ["Bad Floppy disk file 'missing.iso': stat missing.iso: no such file or directory"] :=
  ⟨by decide, Prepare_plain_paths_stat_only fsExample cfgMissing none (by decide), by decide⟩

/-- C3. An entry `p` that has one of the characters `*`, `?`, `[` is checked by
`glob` and never by `stat`, whether its `glob` call succeeds or fails: in
`FloppyFiles` as in `FloppyDirectories`, the call made at the position of the entry
is `glob p`, and no call is `stat p`. Whenever its `glob` call succeeds, with any
list of matches `ms` (empty or not), no error is recorded for it: the returned
errors are those of the configuration without that entry. -/
theorem Prepare_wildcard_glob_only {Context : Type} (fs : FileSystem)
    (pre post : List String) (other : Slice String)
    (content : Option (List (String × String))) (label : String) (ctx : Option Context)
    (p : String) (hwild : ContainsAny p "*?[" = true) :
    ((Prepare fs ⟨Slice.mk (pre ++ p :: post), other, content, label⟩ ctx).probes[pre.length]?
          = some (Probe.glob p)
        ∧ Probe.stat p ∉ (Prepare fs ⟨Slice.mk (pre ++ p :: post), other, content, label⟩ ctx).probes
        ∧ (∀ ms : List String, fs.glob p = .ok ms →
            (Prepare fs ⟨Slice.mk (pre ++ p :: post), other, content, label⟩ ctx).errs
              = (Prepare fs ⟨Slice.mk (pre ++ post), other, content, label⟩ ctx).errs))
      ∧ ((Prepare fs ⟨other, Slice.mk (pre ++ p :: post), content, label⟩ ctx).probes[
            other.len + pre.length]?
          = some (Probe.glob p)
        ∧ Probe.stat p ∉ (Prepare fs ⟨other, Slice.mk (pre ++ p :: post), content, label⟩ ctx).probes
        ∧ (∀ ms : List String, fs.glob p = .ok ms →
            (Prepare fs ⟨other, Slice.mk (pre ++ p :: post), content, label⟩ ctx).errs
              = (Prepare fs ⟨other, Slice.mk (pre ++ post), content, label⟩ ctx).errs)) := by
  have hc : ∀ ms : List String, fs.glob p = .ok ms → checkErr fs p = none := by
    intro ms hglob
    rw [checkErr_of_wildcard fs p hwild, hglob]; rfl
  have hp : probeOf p = Probe.glob p := probeOf_of_wildcard p hwild
  simp only [Prepare_eq, Slice.elems_mk]
  refine ⟨⟨?_, ?_, ?_⟩, ?_, ?_, ?_⟩
  · rw [List.map_append, List.map_cons, hp, List.append_assoc,
      List.getElem?_append_right (by simp)]
    simp
  · rw [← List.map_append]
    exact stat_not_mem_map_probeOf p hwild _
  · intro ms hglob
    rw [fileErrs_append, fileErrs_cons, hc ms hglob, fileErrs_append]
    rfl
  · rw [List.map_append, List.map_cons, hp, ← List.append_assoc,
      List.getElem?_append_right (by simp [Slice.len])]
    simp [Slice.len]
  · rw [← List.map_append]
    exact stat_not_mem_map_probeOf p hwild _
  · intro ms hglob
    rw [dirErrs_append, dirErrs_cons, hc ms hglob, dirErrs_append]
    rfl

/-- C3, at the scenario `floppyDirectories = ["drivers/*"]` with one match, next
to the pattern `*.nomatch` that matches nothing: no error either way; and at the
pattern `foo[bar`, which `glob` rejects: it is probed by `glob`, never by `stat`. -/
theorem Prepare_wildcard_glob_only_witness :
    (ContainsAny "drivers/*" "*?[" = true ∧ fsExample.glob "drivers/*" = .ok ["drivers/net"])
      ∧ (((Prepare fsExample ⟨Slice.mk ([] ++ "drivers/*" :: ["*.nomatch"]), Slice.nil, none, ""⟩
              (none : Option Unit)).probes[([] : List String).length]?
            = some (Probe.glob "drivers/*")
          ∧ Probe.stat "drivers/*" ∉
              (Prepare fsExample ⟨Slice.mk ([] ++ "drivers/*" :: ["*.nomatch"]), Slice.nil, none, ""⟩
                (none : Option Unit)).probes
          ∧ (∀ ms : List String, fsExample.glob "drivers/*" = .ok ms →
              (Prepare fsExample ⟨Slice.mk ([] ++ "drivers/*" :: ["*.nomatch"]), Slice.nil,
                  none, ""⟩ (none : Option Unit)).errs
                = (Prepare fsExample ⟨Slice.mk ([] ++ ["*.nomatch"]), Slice.nil, none, ""⟩
                    (none : Option Unit)).errs))
        ∧ ((Prepare fsExample ⟨Slice.nil, Slice.mk ([] ++ "drivers/*" :: ["*.nomatch"]), none, ""⟩
              (none : Option Unit)).probes[
                (Slice.nil : Slice String).len + ([] : List String).length]?
            = some (Probe.glob "drivers/*")
          ∧ Probe.stat "drivers/*" ∉
              (Prepare fsExample ⟨Slice.nil, Slice.mk ([] ++ "drivers/*" :: ["*.nomatch"]), none, ""⟩
                (none : Option Unit)).probes
          ∧ (∀ ms : List String, fsExample.glob "drivers/*" = .ok ms →
              (Prepare fsExample ⟨Slice.nil, Slice.mk ([] ++ "drivers/*" :: ["*.nomatch"]),
                  none, ""⟩ (none : Option Unit)).errs
                = (Prepare fsExample ⟨Slice.nil, Slice.mk ([] ++ ["*.nomatch"]), none, ""⟩
                    (none : Option Unit)).errs)))
      ∧ (Prepare fsExample ⟨Slice.nil, Slice.mk ([] ++ "drivers/*" :: ["*.nomatch"]), none, ""⟩
            (none : Option Unit)).errs
          = (Prepare fsExample ⟨Slice.nil, Slice.mk ([] ++ ["*.nomatch"]), none, ""⟩
              (none : Option Unit)).errs
      ∧ (Prepare fsExample ⟨Slice.nil, Slice.mk ["drivers/*", "*.nomatch"], none, ""⟩
          (none : Option Unit))
        = { c := ⟨Slice.mk [], Slice.mk ["drivers/*", "*.nomatch"], none, ""⟩,
            errs := Slice.nil,
            probes := [Probe.glob "drivers/*", Probe.glob "*.nomatch"] }
      ∧ (ContainsAny "foo[bar" "*?[" = true
          ∧ fsExample.glob "foo[bar" = .error "syntax error in pattern")
      ∧ ((Prepare fsExample ⟨Slice.mk (["real_file.txt"] ++ "foo[bar" :: []), Slice.nil, none, ""⟩
            (none : Option Unit)).probes[["real_file.txt"].length]?
          = some (Probe.glob "foo[bar")
        ∧ Probe.stat "foo[bar" ∉
            (Prepare fsExample ⟨Slice.mk (["real_file.txt"] ++ "foo[bar" :: []), Slice.nil, none, ""⟩
              (none : Option Unit)).probes) :=
  ⟨⟨by decide, rfl⟩,
    Prepare_wildcard_glob_only fsExample [] ["*.nomatch"] Slice.nil none "" (none : Option Unit)
      "drivers/*" (by decide),
    (Prepare_wildcard_glob_only fsExample [] ["*.nomatch"] Slice.nil none "" (none : Option Unit)
      "drivers/*" (by decide)).2.2.2 ["drivers/net"] rfl,
    by decide,
    ⟨by decide, rfl⟩,
    (Prepare_wildcard_glob_only fsExample ["real_file.txt"] [] Slice.nil none ""
      (none : Option Unit) "foo[bar" (by decide)).1.1,
    (Prepare_wildcard_glob_only fsExample ["real_file.txt"] [] Slice.nil none ""
      (none : Option Unit) "foo[bar" (by decide)).1.2.1⟩

/-- C4, as stated, fails: on `fsExample` the pattern `*.nomatch` matches nothing
and no entry has that name, yet `Prepare` returns no error for the configuration
that lists it. -/
theorem Prepare_accepts_pattern_without_match :
    (Prepare fsExample cfgNoMatch (none : Option Unit)).errs.elems = []
      ∧ "*.nomatch" ∈ cfgNoMatch.FloppyFiles.elems ++ cfgNoMatch.FloppyDirectories.elems
      ∧ resolves fsExample "*.nomatch" = false := by
  decide

/-- C4, amended. If `Prepare` returns no error then, for every entry of
`FloppyFiles` and of `FloppyDirectories`: an entry without any of `*`, `?`, `[`
names an existing file-system entry (its `stat` succeeds), and an entry with one of
them is a pattern that `glob` accepts (its `glob` call succeeds, with any number of
matches, zero included). -/
theorem Prepare_no_error_checks_passed {Context : Type} (fs : FileSystem) (c : FloppyConfig)
    (ctx : Option Context) (hnone : (Prepare fs c ctx).errs.elems = []) :
    ∀ p ∈ c.FloppyFiles.elems ++ c.FloppyDirectories.elems,
      (ContainsAny p "*?[" = false → ∃ info, fs.stat p = .ok info)
        ∧ (ContainsAny p "*?[" = true → ∃ ms, fs.glob p = .ok ms) := by
  rw [Prepare_eq] at hnone
  simp only [elems_collected] at hnone
  obtain ⟨hf, hd⟩ := List.append_eq_nil.mp hnone
  intro p hp
  have hc : checkErr fs p = none := by
    rcases List.mem_append.mp hp with h | h
    · exact fileErrs_eq_nil fs _ hf p h
    · exact dirErrs_eq_nil fs _ hd p h
  constructor
  · intro h
    rw [checkErr_of_plain fs p h] at hc
    exact errOf_eq_none _ hc
  · intro h
    rw [checkErr_of_wildcard fs p h] at hc
    exact errOf_eq_none _ hc

/-- C4, amended, at a configuration with an existing file, a pattern without a
match and a pattern with a match. -/
theorem Prepare_no_error_checks_passed_witness :
    (Prepare fsExample cfgAccepted (none : Option Unit)).errs.elems = []
      ∧ ∀ p ∈ cfgAccepted.FloppyFiles.elems ++ cfgAccepted.FloppyDirectories.elems,
        (ContainsAny p "*?[" = false → ∃ info, fsExample.stat p = .ok info)
          ∧ (ContainsAny p "*?[" = true → ∃ ms, fsExample.glob p = .ok ms) :=
  ⟨by decide,
    Prepare_no_error_checks_passed fsExample cfgAccepted (none : Option Unit) (by decide)⟩

/-- C7. For a path `p` that has one of the characters `*`, `?`, `[` and that
`glob` rejects with the error `e`, `Prepare` returns an error for every occurrence
of `p`: for an occurrence in `FloppyFiles` after the entries `pre`, the returned
error at index (number of failing entries of `pre`) is the file error of `p`; for an
occurrence in `FloppyDirectories` after `pre`, the returned error at index (number
of failing file entries + number of failing entries of `pre`) is the directory
error of `p`; so the file error is returned at least as often as `p` occurs in
`FloppyFiles`, the directory error at least as often as `p` occurs in
`FloppyDirectories`. Both messages hold `p` itself between the quotes. -/
theorem Prepare_malformed_pattern {Context : Type} (fs : FileSystem) (c : FloppyConfig)
    (ctx : Option Context) (p e : String)
    (hwild : ContainsAny p "*?[" = true) (hbad : fs.glob p = .error e) :
    (∀ pre post, c.FloppyFiles.elems = pre ++ p :: post →
        (Prepare fs c ctx).errs.elems[pre.countP (fun q => (checkErr fs q).isSome)]?
          = some ("Bad Floppy disk file '" ++ p ++ "': " ++ e))
      ∧ (∀ pre post, c.FloppyDirectories.elems = pre ++ p :: post →
        (Prepare fs c ctx).errs.elems[
            c.FloppyFiles.elems.countP (fun q => (checkErr fs q).isSome)
              + pre.countP (fun q => (checkErr fs q).isSome)]?
          = some ("Bad Floppy disk directory '" ++ p ++ "': " ++ e))
      ∧ c.FloppyFiles.elems.count p
          ≤ (Prepare fs c ctx).errs.elems.count ("Bad Floppy disk file '" ++ p ++ "': " ++ e)
      ∧ c.FloppyDirectories.elems.count p
          ≤ (Prepare fs c ctx).errs.elems.count
              ("Bad Floppy disk directory '" ++ p ++ "': " ++ e) := by
  have hc : checkErr fs p = some e := by
    rw [checkErr_of_wildcard fs p hwild, hbad]; rfl
  rw [Prepare_eq]
  simp only [elems_collected]
  refine ⟨?_, ?_, ?_, ?_⟩
  · intro pre post hfiles
    rw [hfiles, fileErrs_append, fileErrs_cons, hc, ← length_fileErrs, List.append_assoc,
      List.getElem?_append_right (Nat.le_refl _)]
    simp [fileMsg]
  · intro pre post hdirs
    rw [hdirs, dirErrs_append, dirErrs_cons, hc, ← length_fileErrs, ← length_dirErrs,
      List.getElem?_append_right (Nat.le_add_right _ _),
      List.getElem?_append_right (by omega)]
    simp [dirMsg]
  · rw [List.count_append]
    exact Nat.le_trans (count_le_count_fileErrs fs p e hc _) (Nat.le_add_right _ _)
  · rw [List.count_append]
    exact Nat.le_trans (count_le_count_dirErrs fs p e hc _) (Nat.le_add_left _ _)

/-- C7, at the unterminated character class `foo[bar`, twice among the files and
once among the directories: three errors, each with the path unmodified. -/
theorem Prepare_malformed_pattern_witness :
    (ContainsAny "foo[bar" "*?[" = true
        ∧ fsExample.glob "foo[bar" = .error "syntax error in pattern")
      ∧ ((∀ pre post, cfgMalformed.FloppyFiles.elems = pre ++ "foo[bar" :: post →
          (Prepare fsExample cfgMalformed (none : Option Unit)).errs.elems[
              pre.countP (fun q => (checkErr fsExample q).isSome)]?
            = some ("Bad Floppy disk file '" ++ "foo[bar" ++ "': " ++ "syntax error in pattern"))
        ∧ (∀ pre post, cfgMalformed.FloppyDirectories.elems = pre ++ "foo[bar" :: post →
          (Prepare fsExample cfgMalformed (none : Option Unit)).errs.elems[
              cfgMalformed.FloppyFiles.elems.countP (fun q => (checkErr fsExample q).isSome)
                + pre.countP (fun q => (checkErr fsExample q).isSome)]?
            = some ("Bad Floppy disk directory '" ++ "foo[bar" ++ "': "
                ++ "syntax error in pattern"))
        ∧ cfgMalformed.FloppyFiles.elems.count "foo[bar"
            ≤ (Prepare fsExample cfgMalformed (none : Option Unit)).errs.elems.count
                ("Bad Floppy disk file '" ++ "foo[bar" ++ "': " ++ "syntax error in pattern")
        ∧ cfgMalformed.FloppyDirectories.elems.count "foo[bar"
            ≤ (Prepare fsExample cfgMalformed (none : Option Unit)).errs.elems.count
                ("Bad Floppy disk directory '" ++ "foo[bar" ++ "': "
                  ++ "syntax error in pattern"))
      ∧ (Prepare fsExample cfgMalformed (none : Option Unit)).errs
          = Slice.mk
              ["Bad Floppy disk file 'foo[bar': syntax error in pattern",
               "Bad Floppy disk file 'foo[bar': syntax error in pattern",
               "Bad Floppy disk directory 'foo[bar': syntax error in pattern"] :=
  ⟨⟨by decide, rfl⟩,
    Prepare_malformed_pattern fsExample cfgMalformed none "foo[bar" "syntax error in pattern"
      (by decide) rfl,
    by decide⟩

/-- C8, as stated, fails: the error returned for `missing.iso` is neither of the
form `bad floppy disk file '<path>': <error>` nor of the form
`bad floppy disk directory '<path>': <error>`, for any path and error text; the
message starts with a capital `B`. -/
theorem Prepare_message_not_lower_case :
    ∃ m ∈ (Prepare fsExample cfgMissing (none : Option Unit)).errs.elems,
      ∀ p e : String, m ≠ specFileMsg p e ∧ m ≠ specDirMsg p e := by
  refine ⟨"Bad Floppy disk file 'missing.iso': stat missing.iso: no such file or directory",
    by decide, ?_⟩
  intro p e
  constructor
  · intro h
    have h1 := congrArg (fun t : String => t.data.head?) h
    have h2 : (specFileMsg p e).data.head? = some 'b' :=
      head_data_append _ _ _ (head_data_append _ _ _ (head_data_append _ _ _ rfl))
    simp only [h2] at h1
    exact absurd h1 (by decide)
  · intro h
    have h1 := congrArg (fun t : String => t.data.head?) h
    have h2 : (specDirMsg p e).data.head? = some 'b' :=
      head_data_append _ _ _ (head_data_append _ _ _ (head_data_append _ _ _ rfl))
    simp only [h2] at h1
    exact absurd h1 (by decide)

/-- C8, amended. Every error `Prepare` returns has a message of exactly the form
`Bad Floppy disk file '<path>': <error>`, for an entry `<path>` of `FloppyFiles`
whose check fails, or `Bad Floppy disk directory '<path>': <error>`, for an entry
`<path>` of `FloppyDirectories` whose check fails, where `<path>` is the entry as
given and `<error>` the text of the error of its `stat` or `glob` call. -/
theorem Prepare_error_format {Context : Type} (fs : FileSystem) (c : FloppyConfig)
    (ctx : Option Context) (m : String) (hm : m ∈ (Prepare fs c ctx).errs.elems) :
    (∃ p ∈ c.FloppyFiles.elems, ∃ e, checkErr fs p = some e
        ∧ m = "Bad Floppy disk file '" ++ p ++ "': " ++ e)
      ∨ (∃ p ∈ c.FloppyDirectories.elems, ∃ e, checkErr fs p = some e
        ∧ m = "Bad Floppy disk directory '" ++ p ++ "': " ++ e) := by
  rw [Prepare_eq] at hm
  simp only [elems_collected] at hm
  rcases List.mem_append.mp hm with h | h
  · exact Or.inl (mem_fileErrs fs _ m h)
  · exact Or.inr (mem_dirErrs fs _ m h)

/-- C8, amended, at the directory error of `foo[bar`. -/
theorem Prepare_error_format_witness :
    "Bad Floppy disk directory 'foo[bar': syntax error in pattern"
        ∈ (Prepare fsExample cfgMalformed (none : Option Unit)).errs.elems
      ∧ ((∃ p ∈ cfgMalformed.FloppyFiles.elems, ∃ e, checkErr fsExample p = some e
          ∧ "Bad Floppy disk directory 'foo[bar': syntax error in pattern"
            = "Bad Floppy disk file '" ++ p ++ "': " ++ e)
        ∨ (∃ p ∈ cfgMalformed.FloppyDirectories.elems, ∃ e, checkErr fsExample p = some e
          ∧ "Bad Floppy disk directory 'foo[bar': syntax error in pattern"
            = "Bad Floppy disk directory '" ++ p ++ "': " ++ e)) :=
  ⟨by decide,
    Prepare_error_format fsExample cfgMalformed (none : Option Unit)
      "Bad Floppy disk directory 'foo[bar': syntax error in pattern" (by decide)⟩

/-- C10. The directory check is the file check. For a list `L`, the errors of
`Prepare` with `FloppyFiles = L` and no directories, and the errors of `Prepare`
with `FloppyDirectories = L` and no files, are one error per element of
`failures fs L` (the positions of `L` whose check fails, each with its path and
underlying error), in order; the two differ in the word `file` versus `directory`
only. After any number `k` of entries of `L` the two have recorded the same number
of errors, so the errors are reported at the same positions. The two calls make the
same file-system calls. In particular an existing regular file listed in
`FloppyDirectories` produces no error. -/
theorem Prepare_directories_checked_like_files {Context : Type} (fs : FileSystem)
    (L : List String) (noDirs noFiles : Slice String)
    (content : Option (List (String × String))) (label : String) (ctx : Option Context)
    (hnoDirs : noDirs.elems = []) (hnoFiles : noFiles.elems = []) :
    (Prepare fs ⟨Slice.mk L, noDirs, content, label⟩ ctx).errs.elems
        = (failures fs L).map (fun t => "Bad Floppy disk file '" ++ t.2.1 ++ "': " ++ t.2.2)
      ∧ (Prepare fs ⟨noFiles, Slice.mk L, content, label⟩ ctx).errs.elems
        = (failures fs L).map
            (fun t => "Bad Floppy disk directory '" ++ t.2.1 ++ "': " ++ t.2.2)
      ∧ (∀ k, (Prepare fs ⟨Slice.mk (L.take k), noDirs, content, label⟩ ctx).errs.len
          = (Prepare fs ⟨noFiles, Slice.mk (L.take k), content, label⟩ ctx).errs.len)
      ∧ (Prepare fs ⟨Slice.mk L, noDirs, content, label⟩ ctx).probes
        = (Prepare fs ⟨noFiles, Slice.mk L, content, label⟩ ctx).probes
      ∧ (∀ q info, ContainsAny q "*?[" = false → fs.stat q = .ok info → info.isDir = false →
          (Prepare fs ⟨noFiles, Slice.mk [q], content, label⟩ ctx).errs.elems = []) := by
  simp only [Prepare_eq, Slice.len, elems_collected, Slice.elems_mk, hnoDirs, hnoFiles]
  refine ⟨?_, ?_, ?_, ?_, ?_⟩
  · rw [failures, map_failuresFrom fs (fun q e => "Bad Floppy disk file '" ++ q ++ "': " ++ e)]
    simp only [fileErrs, dirErrs, List.filterMap_nil, List.append_nil]
    rfl
  · rw [failures,
      map_failuresFrom fs (fun q e => "Bad Floppy disk directory '" ++ q ++ "': " ++ e)]
    simp only [fileErrs, dirErrs, List.filterMap_nil, List.nil_append]
    rfl
  · intro k
    simp only [List.length_append, length_fileErrs, length_dirErrs, List.countP_nil,
      Nat.add_zero, Nat.zero_add]
  · simp
  · intro q info hq hstat _
    have hc : checkErr fs q = none := by
      rw [checkErr_of_plain fs q hq, hstat]; rfl
    simp [fileErrs, dirErrs, hc]

/-- C10, at a list with an existing regular file, a missing path and a malformed
pattern. -/
theorem Prepare_directories_checked_like_files_witness :
    ((Slice.nil : Slice String).elems = [] ∧ (Slice.mk ([] : List String)).elems = [])
      ∧ ((Prepare fsExample ⟨Slice.mk ["real_file.txt", "missing.iso", "foo[bar"], Slice.nil,
              none, ""⟩ (none : Option Unit)).errs.elems
          = (failures fsExample ["real_file.txt", "missing.iso", "foo[bar"]).map
              (fun t => "Bad Floppy disk file '" ++ t.2.1 ++ "': " ++ t.2.2)
        ∧ (Prepare fsExample ⟨Slice.mk [], Slice.mk ["real_file.txt", "missing.iso", "foo[bar"],
              none, ""⟩ (none : Option Unit)).errs.elems
          = (failures fsExample ["real_file.txt", "missing.iso", "foo[bar"]).map
              (fun t => "Bad Floppy disk directory '" ++ t.2.1 ++ "': " ++ t.2.2)
        ∧ (∀ k, (Prepare fsExample ⟨Slice.mk (["real_file.txt", "missing.iso", "foo[bar"].take k),
              Slice.nil, none, ""⟩ (none : Option Unit)).errs.len
            = (Prepare fsExample ⟨Slice.mk [],
                Slice.mk (["real_file.txt", "missing.iso", "foo[bar"].take k), none, ""⟩
                (none : Option Unit)).errs.len)
        ∧ (Prepare fsExample ⟨Slice.mk ["real_file.txt", "missing.iso", "foo[bar"], Slice.nil,
              none, ""⟩ (none : Option Unit)).probes
          = (Prepare fsExample ⟨Slice.mk [], Slice.mk ["real_file.txt", "missing.iso", "foo[bar"],
              none, ""⟩ (none : Option Unit)).probes
        ∧ (∀ q info, ContainsAny q "*?[" = false → fsExample.stat q = .ok info →
            info.isDir = false →
            (Prepare fsExample ⟨Slice.mk [], Slice.mk [q], none, ""⟩
              (none : Option Unit)).errs.elems = []))
      ∧ failures fsExample ["real_file.txt", "missing.iso", "foo[bar"]
          = [(1, "missing.iso", "stat missing.iso: no such file or directory"),
             (2, "foo[bar", "syntax error in pattern")]
      ∧ fsExample.stat "real_file.txt" = .ok { isDir := false }
      ∧ (Prepare fsExample ⟨Slice.nil, Slice.mk ["real_file.txt"], none, ""⟩
          (none : Option Unit)).errs = Slice.nil :=
  ⟨⟨rfl, rfl⟩,
    Prepare_directories_checked_like_files fsExample ["real_file.txt", "missing.iso", "foo[bar"]
      Slice.nil (Slice.mk []) none "" none rfl rfl,
    by decide, rfl, by decide⟩

end commonsteps
